import Mathlib

/-!
Verification of the rcview-pytools areal-apportionment core.

This file shallowly embeds the claim-relevant parts of the repository:

* `round_significant` from `rcview_pytools/extras.py` (significant-digit
  rounding on exact rationals, with numpy's round-half-to-even semantics
  modelled by `pyRound`/`aroundHalfEven`);
* `as_shapely2` from `rcview_pytools/geometry.py` (ring classification,
  first-match hole assignment, validity check and the buffer(0) repair
  branch).  The geometric primitives that the code delegates to the
  shapely library (ring orientation, spatial intersection tests, polygon
  validity, the buffer trick, areas) are abstracted into a `GeomOps`
  record; the control flow of the Python code is translated exactly over
  those primitives.  Ring and geometry values are identified by abstract
  tokens, which is faithful because the embedded code never inspects
  coordinates itself, it only calls the library primitives;
* the per-block aggregation loop and the method-dispatch update step of
  `population_housing` from `rcview_pytools/demographics.py`.

Real numbers computed by the Python code (areas, proportions) are
modelled as exact rationals.
-/

/-- Python's built-in `round` to an integer (also the core of
`numpy.around`): round half to even.  `round(q)` for a rational `q`. -/
def pyRound (q : ℚ) : ℤ :=
  if q - ⌊q⌋ < 1/2 then ⌊q⌋
  else if 1/2 < q - ⌊q⌋ then ⌊q⌋ + 1
  else if ⌊q⌋ % 2 = 0 then ⌊q⌋ else ⌊q⌋ + 1

/-- Fuel-driven base-10 logarithm on naturals: for `1 ≤ n`,
`log10Aux n n` is the largest `k` with `10^k ≤ n`. -/
def log10Aux : Nat → Nat → Nat
  | 0, _ => 0
  | fuel+1, n => if n < 10 then 0 else 1 + log10Aux fuel (n / 10)

/-- Fuel-driven base-10 ceiling logarithm on naturals: for `1 ≤ n`,
`clog10Aux n n` is the smallest `k` with `n ≤ 10^k`. -/
def clog10Aux : Nat → Nat → Nat
  | 0, _ => 0
  | fuel+1, n => if n ≤ 1 then 0 else 1 + clog10Aux fuel ((n + 9) / 10)

/-- Exact model of `floor(log10(x))` for a positive rational `x`, as used
by `numpy.floor(numpy.log10(x))` in `round_significant`.  For `x ≥ 1` it
is the number of decimal digits of `⌊x⌋` minus one; for `0 < x < 1` it is
minus the smallest `m` with `1 ≤ x * 10^m`. -/
def log10Floor (x : ℚ) : ℤ :=
  if 1 ≤ x then (log10Aux ⌊x⌋.toNat ⌊x⌋.toNat : ℤ)
  else - (clog10Aux ⌈x⁻¹⌉.toNat ⌈x⁻¹⌉.toNat : ℤ)

/-- Model of `numpy.around(x, n)`: round `x` at `n` decimal places
(`n` may be negative), half to even. -/
def aroundHalfEven (x : ℚ) (n : ℤ) : ℚ :=
  (pyRound (x * (10:ℚ)^n) : ℚ) / (10:ℚ)^n

/-- `round_significant` from `rcview_pytools/extras.py`:

    if x == 0.0: return x
    elif x < 0: raise ValueError('Value must be positive.')
    else: return numpy.around(x, -int(numpy.floor(numpy.log10(x))) + (p - 1))

The raised `ValueError` is modelled as `none`. -/
def round_significant (x : ℚ) (p : ℤ) : Option ℚ :=
  if x = 0 then some x
  else if x < 0 then none
  else some (aroundHalfEven x (-(log10Floor x) + (p - 1)))

/-- A shapely `Polygon` as built by `as_shapely2`: one exterior ring and a
list of interior (hole) rings, each ring identified by an abstract token. -/
structure SPoly where
  exterior : Nat
  holes : List Nat
deriving DecidableEq

/-- The result geometry of `as_shapely2`: a single `ShapelyPolygon` when
exactly one polygon was built, otherwise a `ShapelyMultiPolygon` (possibly
empty).  `buffer(0)` results are also values of this type. -/
inductive Geom where
  | poly : SPoly → Geom
  | multi : List SPoly → Geom
deriving DecidableEq

/-- The geometric primitives that the embedded code delegates to the
shapely library.  `ccw r` is `ShapelyLinearRing(r).is_ccw`;
`holeIntersects i e` is `ShapelyPolygon(i).intersects(ShapelyPolygon(e))`;
`validGeom` is `is_valid`; `selfIntersection g` is whether
`explain_validity(g)` contains the substring `Self-intersection`;
`buffer0` is `buffer(0.0)`; `areaOf` is the `area` property; and
`intersectionOf b a` is `b.intersection(a)`, with `none` modelling a
raised exception. -/
structure GeomOps where
  ccw : Nat → Bool
  holeIntersects : Nat → Nat → Bool
  validGeom : Geom → Bool
  selfIntersection : Geom → Bool
  buffer0 : Geom → Geom
  areaOf : Geom → ℚ
  intersectionOf : Geom → Geom → Option Geom

/-- Ring classification in `as_shapely2`: rings that are not
counter-clockwise are exterior rings, in input order. -/
def exteriorRings (G : GeomOps) (rings : List Nat) : List Nat :=
  rings.filter (fun r => ! G.ccw r)

/-- Ring classification in `as_shapely2`: counter-clockwise rings are
interior (hole) candidates, in input order. -/
def interiorRings (G : GeomOps) (rings : List Nat) : List Nat :=
  rings.filter (fun r => G.ccw r)

/-- The hole-assignment loop of `as_shapely2`: for each exterior ring in
input order, when the candidate pool is non-empty, partition the pool into
the rings that spatially intersect this exterior ring (assigned to it) and
the rest (kept as the pool for the remaining exterior rings). -/
def assignHoles (G : GeomOps) : List Nat → List Nat → List SPoly
  | [], _ => []
  | e :: es, ints =>
    if ints.isEmpty then
      ⟨e, []⟩ :: assignHoles G es ints
    else
      ⟨e, ints.filter (fun i => G.holeIntersects i e)⟩ ::
        assignHoles G es (ints.filter (fun i => ! G.holeIntersects i e))

/-- The geometry built by `as_shapely2` before the validity check: a
single polygon when exactly one polygon was produced, otherwise a
multi-polygon of all produced polygons (empty when there was no exterior
ring). -/
def rawGeom (G : GeomOps) (rings : List Nat) : Geom :=
  match assignHoles G (exteriorRings G rings) (interiorRings G rings) with
  | [p] => Geom.poly p
  | ps => Geom.multi ps

/-- The observable outcome of `as_shapely2`: the returned geometry,
whether the buffer(0) repair was applied, and whether a `UserWarning` was
issued. -/
structure Shp2Out where
  geom : Geom
  repaired : Bool
  warned : Bool
deriving DecidableEq

/-- `as_shapely2` from `rcview_pytools/geometry.py`: build the raw
geometry; if it is invalid, repair it with `buffer(0.0)` when the
invalidity reason is a self-intersection and `fix_self_intersections`
is set, and issue a warning when `warn_invalid` is set. -/
def as_shapely2 (G : GeomOps) (rings : List Nat)
    (fix_self_intersections warn_invalid : Bool) : Shp2Out :=
  let g := rawGeom G rings
  if G.validGeom g then ⟨g, false, false⟩
  else if G.selfIntersection g && fix_self_intersections then
    ⟨G.buffer0 g, true, warn_invalid⟩
  else ⟨g, false, warn_invalid⟩

/-- One candidate census block row as used by the aggregation loop of
`population_housing`: its `GEOID` (as an abstract identifier token), its
`POP100` and `HU100` counts, and the `rings` of its `SHAPE`. -/
structure Block where
  geoid : Nat
  pop : ℤ
  hu : ℤ
  rings : List Nat
deriving DecidableEq

/-- The running accumulators of the per-block loop of
`population_housing`, together with the `processing_warnings` and
`processing_errors` lists (modelled by the identifiers of the blocks that
were reported, in order of being appended). -/
structure LoopAcc where
  pop_all : ℤ
  pop_gt50 : ℤ
  pop_wtd : ℤ
  hu_all : ℤ
  hu_gt50 : ℤ
  hu_wtd : ℤ
  blocks_gt50 : ℤ
  warnings : List Nat
  errors : List Nat
deriving DecidableEq

/-- The accumulator state before the block loop: all seven counters zero,
no warnings, no errors. -/
def emptyAcc : LoopAcc := ⟨0, 0, 0, 0, 0, 0, 0, [], []⟩

/-- One iteration of the per-block loop of `population_housing`
(`demographics.py` lines 167-195):

    block_poly = block.SHAPE.as_shapely2()        # default arguments
    if not block_poly.is_valid: warn and continue
    try: intersection = block_poly.intersection(area_poly)
    except: record error and continue
    int_prop = intersection.area / block_poly.area
    pop_all += pop; pop_gt50 += pop * (int_prop > 0.5)
    pop_wtd += round(pop * int_prop); ... ; blocks_gt50 += int_prop > 0.5

Note that `as_shapely2` is called with its default arguments, i.e. with
`fix_self_intersections=True` and `warn_invalid=True`. -/
def processBlock (G : GeomOps) (areaPoly : Geom) (acc : LoopAcc) (b : Block) : LoopAcc :=
  let out := as_shapely2 G b.rings true true
  if ! G.validGeom out.geom then
    { acc with warnings := acc.warnings ++ [b.geoid] }
  else
    match G.intersectionOf out.geom areaPoly with
    | none => { acc with errors := acc.errors ++ [b.geoid] }
    | some ig =>
      let int_prop := G.areaOf ig / G.areaOf out.geom
      { acc with
        pop_all := acc.pop_all + b.pop
        pop_gt50 := acc.pop_gt50 + (if 1/2 < int_prop then b.pop else 0)
        pop_wtd := acc.pop_wtd + pyRound ((b.pop : ℚ) * int_prop)
        hu_all := acc.hu_all + b.hu
        hu_gt50 := acc.hu_gt50 + (if 1/2 < int_prop then b.hu else 0)
        hu_wtd := acc.hu_wtd + pyRound ((b.hu : ℚ) * int_prop)
        blocks_gt50 := acc.blocks_gt50 + (if 1/2 < int_prop then 1 else 0) }

/-- `area_sq_mi = area_poly.area / 4046.86 / 640` from
`demographics.py` line 156. -/
def areaSqMi (G : GeomOps) (areaPoly : Geom) : ℚ :=
  G.areaOf areaPoly / (404686/100) / 640

/-- The per-area summary record built at `demographics.py` lines 197-214.
The code stores the `ERRORS`/`WARNINGS` keys only when the lists are
non-empty; here an absent key is represented by an empty list. -/
structure AreaSummary where
  no_blocks_all : ℕ
  no_blocks_gt50 : ℤ
  pop_all : ℤ
  pop_gt50 : ℤ
  pop_wtd : ℤ
  hu_all : ℤ
  hu_gt50 : ℤ
  hu_wtd : ℤ
  area_sq_mi : ℚ
  warnings : List Nat
  errors : List Nat
deriving DecidableEq

/-- The block-aggregation part of `population_housing` for one area: fold
the per-block loop over the candidate blocks (in query order) and build
the summary record.  `no_blocks_all` is `len(census_blocks)`. -/
def summarizeBlocks (G : GeomOps) (areaPoly : Geom) (blocks : List Block) : AreaSummary :=
  let acc := blocks.foldl (processBlock G areaPoly) emptyAcc
  { no_blocks_all := blocks.length
    no_blocks_gt50 := acc.blocks_gt50
    pop_all := acc.pop_all
    pop_gt50 := acc.pop_gt50
    pop_wtd := acc.pop_wtd
    hu_all := acc.hu_all
    hu_gt50 := acc.hu_gt50
    hu_wtd := acc.hu_wtd
    area_sq_mi := areaSqMi G areaPoly
    warnings := acc.warnings
    errors := acc.errors }

/-- The four mutable attributes of one area row that the update step of
`population_housing` may write (`population`, `housing`, `area_sq_mi`,
`method`); `none` models a null attribute. -/
structure AreaRecord where
  population : Option ℚ
  housing : Option ℚ
  area_sq_mi : Option ℚ
  method : Option String
deriving DecidableEq

/-- The `if method == 'all' / 'gt50' / 'wtd' / else: method = None` chain
of `demographics.py` lines 217-230.  The second component records whether
the method was recognized (`method is not None` afterwards); `none`
models a `ValueError` escaping from `round_significant`.  The calls
`_round_significant(...)` use the default precision `p=2`. -/
def applyPolicy (method : String) (s : AreaSummary) (a : AreaRecord) :
    Option (AreaRecord × Bool) :=
  if method = "all" then
    (round_significant (s.pop_all : ℚ) 2).bind fun p =>
    (round_significant (s.hu_all : ℚ) 2).map fun h =>
      ({ a with population := some p, housing := some h, method := some "all" }, true)
  else if method = "gt50" then
    (round_significant (s.pop_gt50 : ℚ) 2).bind fun p =>
    (round_significant (s.hu_gt50 : ℚ) 2).map fun h =>
      ({ a with population := some p, housing := some h,
                method := some "greater than 50%" }, true)
  else if method = "wtd" then
    (round_significant (s.pop_wtd : ℚ) 2).bind fun p =>
    (round_significant (s.hu_wtd : ℚ) 2).map fun h =>
      ({ a with population := some p, housing := some h,
                method := some "weighted" }, true)
  else some (a, false)

/-- The complete per-area update step of `population_housing`
(`demographics.py` lines 216-237): run the method chain; then, only when
the method was recognized (`method is not None`), also set
`area.area_sq_mi` to the computed value and call
`areas_layer.edit_features` for this area.  The Bool in the result states
whether that persistence call was made. -/
def updateArea (method : String) (s : AreaSummary) (a : AreaRecord) :
    Option (AreaRecord × Bool) :=
  (applyPolicy method s a).map fun r =>
    if r.2 then ({ r.1 with area_sq_mi := some s.area_sq_mi }, true)
    else (r.1, false)

/-- The normalized polygon of one block, exactly as the block loop
obtains it: `block.SHAPE.as_shapely2()` with the default arguments. -/
def blockNorm (G : GeomOps) (b : Block) : Shp2Out :=
  as_shapely2 G b.rings true true

/-- Derived predicate: the block loop skips block `b` (by `continue`),
either because its normalized polygon is invalid or because the
intersection computation fails. -/
def blockSkipped (G : GeomOps) (areaPoly : Geom) (b : Block) : Bool :=
  ! G.validGeom (blockNorm G b).geom ||
    (G.intersectionOf (blockNorm G b).geom areaPoly).isNone

/-- Derived value: the `int_prop` the loop computes for a non-skipped
block `b` (0 as a dummy for skipped blocks). -/
def blockProp (G : GeomOps) (areaPoly : Geom) (b : Block) : ℚ :=
  match G.intersectionOf (blockNorm G b).geom areaPoly with
  | some ig => G.areaOf ig / G.areaOf (blockNorm G b).geom
  | none => 0

/-- Modelled from the spec: the per-block loop as the spec describes it,
"Normalize the block's rings (repair disabled — block polygons are fixed
reference data and not auto-fixed; only warned)" — identical to
`processBlock` except that `as_shapely2` is called with
`fix_self_intersections` disabled.  Used only to compare the spec's
claimed block path with the source's block path. -/
def processBlockSpecNoFix (G : GeomOps) (areaPoly : Geom) (acc : LoopAcc) (b : Block) : LoopAcc :=
  let out := as_shapely2 G b.rings false true
  if ! G.validGeom out.geom then
    { acc with warnings := acc.warnings ++ [b.geoid] }
  else
    match G.intersectionOf out.geom areaPoly with
    | none => { acc with errors := acc.errors ++ [b.geoid] }
    | some ig =>
      let int_prop := G.areaOf ig / G.areaOf out.geom
      { acc with
        pop_all := acc.pop_all + b.pop
        pop_gt50 := acc.pop_gt50 + (if 1/2 < int_prop then b.pop else 0)
        pop_wtd := acc.pop_wtd + pyRound ((b.pop : ℚ) * int_prop)
        hu_all := acc.hu_all + b.hu
        hu_gt50 := acc.hu_gt50 + (if 1/2 < int_prop then b.hu else 0)
        hu_wtd := acc.hu_wtd + pyRound ((b.hu : ℚ) * int_prop)
        blocks_gt50 := acc.blocks_gt50 + (if 1/2 < int_prop then 1 else 0) }

/-- Modelled from the spec: "`blocks_all` = count of all candidate blocks
that were *not* skipped for invalidity/error".  Used only to compare the
spec's claimed count with the source's `len(census_blocks)`. -/
def notSkippedCount (G : GeomOps) (areaPoly : Geom) (blocks : List Block) : ℕ :=
  (blocks.filter (fun b => ! blockSkipped G areaPoly b)).length

/-- Modelled from the spec: "computes `round(x, -floor(log10(x)) + (p-1))`
— i.e., rounds at the decimal position that leaves `p` significant
digits", with the round-half-to-even mode named in the design notes.
Used to compare the spec's formula with the source's
`round_significant`. -/
def specRoundSig (x : ℚ) (p : ℤ) : ℚ :=
  aroundHalfEven x (-(log10Floor x) + (p - 1))

/-- Index of the first exterior ring (in order) whose polygon an interior
ring spatially intersects; `none` when it intersects none of them. -/
def firstMatch (G : GeomOps) (i : Nat) : List Nat → Option Nat
  | [] => none
  | e :: es =>
    if G.holeIntersects i e then some 0 else (firstMatch G i es).map (· + 1)

/-- Concrete geometry backend for the repair counterexample: every ring is
an exterior ring; the raw block geometry (ring 0 alone) is invalid with a
self-intersection; `buffer(0)` turns it into the valid polygon with ring 1;
all areas are 1, so the intersection proportion is 1. -/
def G1 : GeomOps :=
  { ccw := fun _ => false
    holeIntersects := fun _ _ => false
    validGeom := fun g => if g = Geom.poly ⟨1, []⟩ then true else false
    selfIntersection := fun _ => true
    buffer0 := fun _ => Geom.poly ⟨1, []⟩
    areaOf := fun _ => 1
    intersectionOf := fun _ _ => some (Geom.poly ⟨1, []⟩) }

/-- The area polygon used with `G1`. -/
def areaPoly1 : Geom := Geom.poly ⟨2, []⟩

/-- A census block with a self-intersecting polygon (ring 0), population
10 and 5 housing units. -/
def blk1 : Block := ⟨7, 10, 5, [0]⟩

/-- Concrete geometry backend where nothing is valid and nothing is a
self-intersection, so normalization leaves geometries invalid and every
block is skipped. -/
def G2 : GeomOps :=
  { ccw := fun _ => false
    holeIntersects := fun _ _ => false
    validGeom := fun _ => false
    selfIntersection := fun _ => false
    buffer0 := fun g => g
    areaOf := fun _ => 1
    intersectionOf := fun _ _ => none }

/-- The area polygon used with `G2`. -/
def areaPoly2 : Geom := Geom.multi []

/-- A census block whose polygon cannot be made valid. -/
def blk2 : Block := ⟨4, 3, 3, [0]⟩

/-- Concrete geometry backend where every block polygon is valid with
area 2 and every intersection has area 1, so every proportion is exactly
one half. -/
def G3 : GeomOps :=
  { ccw := fun _ => false
    holeIntersects := fun _ _ => false
    validGeom := fun _ => true
    selfIntersection := fun _ => false
    buffer0 := fun g => g
    areaOf := fun g => if g = Geom.multi [] then 1 else 2
    intersectionOf := fun _ _ => some (Geom.multi []) }

/-- The area polygon used with `G3`. -/
def areaPoly3 : Geom := Geom.poly ⟨9, []⟩

/-- First half-covered block: population 1, housing 1. -/
def blk31 : Block := ⟨1, 1, 1, [0]⟩

/-- Second half-covered block: population 1, housing 1. -/
def blk32 : Block := ⟨2, 1, 1, [0]⟩

/-- Concrete geometry backend where the block polygon (ring 0) has area 5,
the computed intersection has area 6 and the area polygon has area 100, so
the proportion 6/5 exceeds 1 and the block area differs from the area
polygon's area. -/
def G5 : GeomOps :=
  { ccw := fun _ => false
    holeIntersects := fun _ _ => false
    validGeom := fun _ => true
    selfIntersection := fun _ => false
    buffer0 := fun g => g
    areaOf := fun g =>
      if g = Geom.multi [] then 6 else if g = Geom.poly ⟨0, []⟩ then 5 else 100
    intersectionOf := fun _ _ => some (Geom.multi []) }

/-- The area polygon used with `G5` (area 100). -/
def areaPoly5 : Geom := Geom.poly ⟨9, []⟩

/-- The block used with `G5`: population 10, housing 20. -/
def blk5 : Block := ⟨3, 10, 20, [0]⟩

/-- Concrete geometry backend for the hole-assignment example: every
interior ring spatially intersects every exterior ring's polygon. -/
def G8 : GeomOps :=
  { ccw := fun r => 2 ≤ r
    holeIntersects := fun _ _ => true
    validGeom := fun _ => true
    selfIntersection := fun _ => false
    buffer0 := fun g => g
    areaOf := fun _ => 1
    intersectionOf := fun _ _ => some (Geom.multi []) }

/-- Concrete geometry backend in which every ring is counter-clockwise
and the empty multi-polygon is valid, as in shapely. -/
def G10 : GeomOps :=
  { ccw := fun _ => true
    holeIntersects := fun _ _ => false
    validGeom := fun _ => true
    selfIntersection := fun _ => false
    buffer0 := fun g => g
    areaOf := fun _ => 0
    intersectionOf := fun _ _ => none }
theorem filter_decide_firstMatch_zero (G : GeomOps) (e : Nat) (es : List Nat) (ints : List Nat) :
    ints.filter (fun i => decide (firstMatch G i (e :: es) = some 0))
      = ints.filter (fun i => G.holeIntersects i e) := by
  apply List.filter_congr
  intro i _
  cases h : G.holeIntersects i e with
  | true => simp [firstMatch, h]
  | false =>
    simp only [firstMatch, h, if_neg Bool.false_ne_true]
    cases hm : firstMatch G i es <;> simp

theorem filter_decide_firstMatch_succ (G : GeomOps) (e : Nat) (es : List Nat)
    (ints : List Nat) (k : ℕ) :
    (ints.filter (fun i => ! G.holeIntersects i e)).filter
        (fun i => decide (firstMatch G i es = some k))
      = ints.filter (fun i => decide (firstMatch G i (e :: es) = some (k + 1))) := by
  rw [List.filter_filter]
  apply List.filter_congr
  intro i _
  cases h : G.holeIntersects i e with
  | true => simp [firstMatch, h]
  | false =>
    simp only [firstMatch, h, if_neg Bool.false_ne_true]
    cases hm : firstMatch G i es <;> simp

theorem assignHoles_char (G : GeomOps) : ∀ (exts ints : List Nat) (k : ℕ) (p : SPoly),
    (assignHoles G exts ints).get? k = some p →
    exts.get? k = some p.exterior ∧
    p.holes = ints.filter (fun i => decide (firstMatch G i exts = some k)) := by
  intro exts
  induction exts with
  | nil => intro ints k p h; simp [assignHoles] at h
  | cons e es ih =>
    intro ints k p h
    have hunf : assignHoles G (e :: es) ints =
        if ints.isEmpty then ⟨e, []⟩ :: assignHoles G es ints
        else ⟨e, ints.filter (fun i => G.holeIntersects i e)⟩ ::
          assignHoles G es (ints.filter (fun i => ! G.holeIntersects i e)) := rfl
    by_cases he : ints.isEmpty = true
    · have hnil : ints = [] := List.isEmpty_iff.mp he
      rw [hunf, if_pos he] at h
      subst hnil
      cases k with
      | zero =>
        simp only [List.get?_cons_zero, Option.some_inj] at h
        subst h
        simp
      | succ k =>
        simp only [List.get?_cons_succ] at h
        obtain ⟨h1, h2⟩ := ih [] k p h
        refine ⟨by simpa using h1, by simpa using h2⟩
    · rw [hunf, if_neg he] at h
      cases k with
      | zero =>
        simp only [List.get?_cons_zero, Option.some_inj] at h
        subst h
        exact ⟨rfl, (filter_decide_firstMatch_zero G e es ints).symm⟩
      | succ k =>
        simp only [List.get?_cons_succ] at h
        obtain ⟨h1, h2⟩ := ih _ k p h
        refine ⟨by simpa using h1, ?_⟩
        rw [h2, filter_decide_firstMatch_succ]

/-- An interior ring ends up in the hole list of at most one of the
polygons produced by the hole-assignment loop. -/
theorem assignHoles_at_most_one (G : GeomOps) (exts ints : List Nat) (i : Nat)
    (k₁ k₂ : ℕ) (p₁ p₂ : SPoly)
    (h₁ : (assignHoles G exts ints).get? k₁ = some p₁)
    (h₂ : (assignHoles G exts ints).get? k₂ = some p₂)
    (m₁ : i ∈ p₁.holes) (m₂ : i ∈ p₂.holes) : k₁ = k₂ := by
  obtain ⟨-, e₁⟩ := assignHoles_char G exts ints k₁ p₁ h₁
  obtain ⟨-, e₂⟩ := assignHoles_char G exts ints k₂ p₂ h₂
  rw [e₁] at m₁
  rw [e₂] at m₂
  have f₁ := (List.mem_filter.mp m₁).2
  have f₂ := (List.mem_filter.mp m₂).2
  simp only [decide_eq_true_eq] at f₁ f₂
  rw [f₁] at f₂
  exact Option.some.inj f₂

/-- A summary record with all counters zero and computed area 7, used as
a concrete input for the update step. -/
def s0 : AreaSummary := ⟨0, 0, 0, 0, 0, 0, 0, 0, 7, [], []⟩

/-- An area record with all four mutable attributes null. -/
def a0 : AreaRecord := ⟨none, none, none, none⟩

/-- Step lemma: a block whose normalized polygon is invalid is skipped,
appending exactly one warning and changing nothing else. -/
theorem processBlock_invalid (G : GeomOps) (areaPoly : Geom) (acc : LoopAcc) (b : Block)
    (h : G.validGeom (blockNorm G b).geom = false) :
    processBlock G areaPoly acc b = { acc with warnings := acc.warnings ++ [b.geoid] } := by
  have e : as_shapely2 G b.rings true true = blockNorm G b := rfl
  simp [processBlock, e, h]

/-- Step lemma: a block whose intersection computation fails is skipped,
appending exactly one error and changing nothing else. -/
theorem processBlock_error (G : GeomOps) (areaPoly : Geom) (acc : LoopAcc) (b : Block)
    (h : G.validGeom (blockNorm G b).geom = true)
    (h2 : G.intersectionOf (blockNorm G b).geom areaPoly = none) :
    processBlock G areaPoly acc b = { acc with errors := acc.errors ++ [b.geoid] } := by
  have e : as_shapely2 G b.rings true true = blockNorm G b := rfl
  simp [processBlock, e, h, h2]

/-- Step lemma: a non-skipped block updates every accumulator with the
proportion `intersection.area / block_poly.area`. -/
theorem processBlock_ok (G : GeomOps) (areaPoly : Geom) (acc : LoopAcc) (b : Block)
    (ig : Geom) (h : G.validGeom (blockNorm G b).geom = true)
    (h2 : G.intersectionOf (blockNorm G b).geom areaPoly = some ig) :
    processBlock G areaPoly acc b =
      { acc with
        pop_all := acc.pop_all + b.pop
        pop_gt50 := acc.pop_gt50 +
          (if 1/2 < G.areaOf ig / G.areaOf (blockNorm G b).geom then b.pop else 0)
        pop_wtd := acc.pop_wtd +
          pyRound ((b.pop : ℚ) * (G.areaOf ig / G.areaOf (blockNorm G b).geom))
        hu_all := acc.hu_all + b.hu
        hu_gt50 := acc.hu_gt50 +
          (if 1/2 < G.areaOf ig / G.areaOf (blockNorm G b).geom then b.hu else 0)
        hu_wtd := acc.hu_wtd +
          pyRound ((b.hu : ℚ) * (G.areaOf ig / G.areaOf (blockNorm G b).geom))
        blocks_gt50 := acc.blocks_gt50 +
          (if 1/2 < G.areaOf ig / G.areaOf (blockNorm G b).geom then 1 else 0) } := by
  have e : as_shapely2 G b.rings true true = blockNorm G b := rfl
  simp [processBlock, e, h, h2]

/-- For a non-skipped block, `blockProp` is the quotient the loop uses. -/
theorem blockProp_eq (G : GeomOps) (areaPoly : Geom) (b : Block) (ig : Geom)
    (h2 : G.intersectionOf (blockNorm G b).geom areaPoly = some ig) :
    blockProp G areaPoly b = G.areaOf ig / G.areaOf (blockNorm G b).geom := by
  unfold blockProp
  rw [h2]

/-- Per-step behaviour of `pop_wtd`: unchanged for a skipped block,
otherwise incremented by the independently rounded contribution. -/
theorem processBlock_pop_wtd (G : GeomOps) (A : Geom) (acc : LoopAcc) (b : Block) :
    (processBlock G A acc b).pop_wtd = acc.pop_wtd +
      (if blockSkipped G A b then 0 else pyRound ((b.pop : ℚ) * blockProp G A b)) := by
  cases hv : G.validGeom (blockNorm G b).geom
  · rw [processBlock_invalid G A acc b hv]
    simp [blockSkipped, hv]
  · cases hi : G.intersectionOf (blockNorm G b).geom A with
    | none =>
      rw [processBlock_error G A acc b hv hi]
      simp [blockSkipped, hv, hi]
    | some ig =>
      rw [processBlock_ok G A acc b ig hv hi, blockProp_eq G A b ig hi]
      simp [blockSkipped, hv, hi]

/-- Per-step behaviour of `hu_wtd`: unchanged for a skipped block,
otherwise incremented by the independently rounded contribution. -/
theorem processBlock_hu_wtd (G : GeomOps) (A : Geom) (acc : LoopAcc) (b : Block) :
    (processBlock G A acc b).hu_wtd = acc.hu_wtd +
      (if blockSkipped G A b then 0 else pyRound ((b.hu : ℚ) * blockProp G A b)) := by
  cases hv : G.validGeom (blockNorm G b).geom
  · rw [processBlock_invalid G A acc b hv]
    simp [blockSkipped, hv]
  · cases hi : G.intersectionOf (blockNorm G b).geom A with
    | none =>
      rw [processBlock_error G A acc b hv hi]
      simp [blockSkipped, hv, hi]
    | some ig =>
      rw [processBlock_ok G A acc b ig hv hi, blockProp_eq G A b ig hi]
      simp [blockSkipped, hv, hi]

/-- The whole block loop: `pop_wtd` is the sum, over the blocks that were
not skipped, of the per-block rounded contributions. -/
theorem foldl_pop_wtd (G : GeomOps) (A : Geom) (bs : List Block) : ∀ acc : LoopAcc,
    (bs.foldl (processBlock G A) acc).pop_wtd
      = acc.pop_wtd + ((bs.filter (fun b => ! blockSkipped G A b)).map
          (fun b => pyRound ((b.pop : ℚ) * blockProp G A b))).sum := by
  induction bs with
  | nil => intro acc; simp
  | cons b bs ih =>
    intro acc
    rw [List.foldl_cons, ih, processBlock_pop_wtd]
    cases hs : blockSkipped G A b <;> simp [hs, List.filter_cons, add_assoc]

/-- The whole block loop: `hu_wtd` is the sum, over the blocks that were
not skipped, of the per-block rounded contributions. -/
theorem foldl_hu_wtd (G : GeomOps) (A : Geom) (bs : List Block) : ∀ acc : LoopAcc,
    (bs.foldl (processBlock G A) acc).hu_wtd
      = acc.hu_wtd + ((bs.filter (fun b => ! blockSkipped G A b)).map
          (fun b => pyRound ((b.hu : ℚ) * blockProp G A b))).sum := by
  induction bs with
  | nil => intro acc; simp
  | cons b bs ih =>
    intro acc
    rw [List.foldl_cons, ih, processBlock_hu_wtd]
    cases hs : blockSkipped G A b <;> simp [hs, List.filter_cons, add_assoc]

/-- For positive input, `round_significant` takes its formula branch. -/
theorem round_significant_of_pos (x : ℚ) (hx : 0 < x) (p : ℤ) :
    round_significant x p = some (specRoundSig x p) := by
  unfold round_significant specRoundSig
  rw [if_neg (ne_of_gt hx), if_neg (not_lt.mpr hx.le)]

/-- For non-negative input, `round_significant` does not raise. -/
theorem round_significant_nonneg_exists (x : ℚ) (hx : 0 ≤ x) (p : ℤ) :
    ∃ y, round_significant x p = some y := by
  rcases eq_or_lt_of_le hx with h | h
  · exact ⟨x, by rw [round_significant, if_pos h.symm]⟩
  · exact ⟨_, round_significant_of_pos x h p⟩

/-- `⌊log10 1234⌋ = 3`. -/
theorem log10Floor_1234 : log10Floor 1234 = 3 := by
  norm_num [log10Floor]
  decide

/-- `⌊log10 87⌋ = 1`. -/
theorem log10Floor_87 : log10Floor 87 = 1 := by
  norm_num [log10Floor]
  decide

/-- Concrete evaluation: 1234 to two significant digits is 1200. -/
theorem round_significant_1234 : round_significant 1234 2 = some 1200 := by
  norm_num [round_significant, aroundHalfEven, log10Floor_1234, pyRound]

/-- Concrete evaluation: 87 to two significant digits is 87. -/
theorem round_significant_87_2 : round_significant 87 2 = some 87 := by
  norm_num [round_significant, aroundHalfEven, log10Floor_87, pyRound]

/-- Concrete evaluation: 87 to three significant digits is 87. -/
theorem round_significant_87_3 : round_significant 87 3 = some 87 := by
  norm_num [round_significant, aroundHalfEven, log10Floor_87, pyRound]

/-- In the `G3` backend the first block's proportion is exactly 1/2. -/
theorem blockProp_G3_blk31 : blockProp G3 areaPoly3 blk31 = 1/2 := by
  rw [blockProp_eq G3 areaPoly3 blk31 (Geom.multi []) (by decide),
      show (blockNorm G3 blk31).geom = Geom.poly ⟨0, []⟩ from by decide]
  norm_num [G3, show Geom.poly ⟨0, []⟩ ≠ Geom.multi [] from by decide]

/-- In the `G3` backend the second block's proportion is exactly 1/2. -/
theorem blockProp_G3_blk32 : blockProp G3 areaPoly3 blk32 = 1/2 := by
  rw [blockProp_eq G3 areaPoly3 blk32 (Geom.multi []) (by decide),
      show (blockNorm G3 blk32).geom = Geom.poly ⟨0, []⟩ from by decide]
  norm_num [G3, show Geom.poly ⟨0, []⟩ ≠ Geom.multi [] from by decide]

/-- C6: for every positive `x`, `round_significant x p` equals `x` rounded
(half to even) at the decimal position `-⌊log10 x⌋ + (p-1)`, i.e. to `p`
significant digits, and in particular `round_significant 1234 2 = 1200`,
`round_significant 87 2 = 87` and `round_significant 87 3 = 87`. -/
theorem c6_round_significant_formula :
    (∀ x : ℚ, 0 < x → ∀ p : ℤ, round_significant x p = some (specRoundSig x p)) ∧
    round_significant 1234 2 = some 1200 ∧
    round_significant 87 2 = some 87 ∧
    round_significant 87 3 = some 87 :=
  ⟨fun x hx p => round_significant_of_pos x hx p,
   round_significant_1234, round_significant_87_2, round_significant_87_3⟩

/-- Witness for C6 at `x = 1234`, `p = 2`. -/
theorem c6_witness :
    (0 : ℚ) < 1234 ∧ round_significant 1234 2 = some (specRoundSig 1234 2) :=
  ⟨by norm_num, c6_round_significant_formula.1 1234 (by norm_num) 2⟩

/-- C7: `round_significant 0 p` returns 0 unchanged for every `p`, and
`round_significant x p` raises (modelled as `none`) for every negative `x`
and every `p`. -/
theorem c7_zero_identity_negative_raises :
    (∀ p : ℤ, round_significant 0 p = some 0) ∧
    (∀ (x : ℚ) (p : ℤ), x < 0 → round_significant x p = none) := by
  constructor
  · intro p
    rw [round_significant, if_pos rfl]
  · intro x p hx
    rw [round_significant, if_neg (ne_of_lt hx), if_pos hx]

/-- Witness for C7 at `p = 5` and `x = -3`. -/
theorem c7_witness :
    round_significant 0 5 = some 0 ∧ ((-3 : ℚ) < 0 ∧ round_significant (-3) 5 = none) :=
  ⟨c7_zero_identity_negative_raises.1 5,
   by norm_num, c7_zero_identity_negative_raises.2 (-3) 5 (by norm_num)⟩

/-- C10: when the input ring list contains no clockwise (exterior) ring,
`as_shapely2` returns the empty multi-polygon, every interior ring is
silently discarded, and — because the empty geometry passes the validity
check, as it does in shapely — no warning is recorded and no repair is
attempted. -/
theorem c10_no_exterior_empty_result (G : GeomOps) (rings : List Nat)
    (fix_self_intersections warn_invalid : Bool)
    (hccw : ∀ r ∈ rings, G.ccw r = true)
    (hvalid : G.validGeom (Geom.multi []) = true) :
    as_shapely2 G rings fix_self_intersections warn_invalid
      = ⟨Geom.multi [], false, false⟩ := by
  have hext : exteriorRings G rings = [] := by
    rw [exteriorRings, List.filter_eq_nil_iff]
    intro r hr
    simp [hccw r hr]
  have hraw : rawGeom G rings = Geom.multi [] := by
    unfold rawGeom
    rw [hext]
    rfl
  simp [as_shapely2, hraw, hvalid]

/-- Witness for C10: a two-ring input, both rings counter-clockwise. -/
theorem c10_witness :
    (∀ r ∈ [5, 6], G10.ccw r = true) ∧ G10.validGeom (Geom.multi []) = true ∧
    as_shapely2 G10 [5, 6] true true = ⟨Geom.multi [], false, false⟩ :=
  ⟨by decide, by decide,
   c10_no_exterior_empty_result G10 [5, 6] true true (by decide) (by decide)⟩

/-- C8: hole assignment is first-match over exterior rings in input order:
the polygon at position `k` is built from the `k`-th exterior ring and its
holes are exactly the interior rings whose first spatially-intersecting
exterior ring (in input order) is the `k`-th one; consequently every
interior ring is assigned to at most one exterior ring, even when it also
intersects a later exterior ring, as in the concrete `G8` example where
interior ring 2 intersects both exterior rings but is assigned only to
the first. -/
theorem c8_first_match_hole_assignment :
    (∀ (G : GeomOps) (exts ints : List Nat) (k : ℕ) (p : SPoly),
        (assignHoles G exts ints).get? k = some p →
        exts.get? k = some p.exterior ∧
        p.holes = ints.filter (fun i => decide (firstMatch G i exts = some k))) ∧
    (∀ (G : GeomOps) (exts ints : List Nat) (i : Nat) (k₁ k₂ : ℕ) (p₁ p₂ : SPoly),
        (assignHoles G exts ints).get? k₁ = some p₁ →
        (assignHoles G exts ints).get? k₂ = some p₂ →
        i ∈ p₁.holes → i ∈ p₂.holes → k₁ = k₂) ∧
    (G8.holeIntersects 2 0 = true ∧ G8.holeIntersects 2 1 = true ∧
      assignHoles G8 [0, 1] [2] = [⟨0, [2]⟩, ⟨1, []⟩]) :=
  ⟨fun G exts ints k p h => assignHoles_char G exts ints k p h,
   fun G exts ints i k₁ k₂ p₁ p₂ h₁ h₂ m₁ m₂ =>
     assignHoles_at_most_one G exts ints i k₁ k₂ p₁ p₂ h₁ h₂ m₁ m₂,
   by decide, by decide, by decide⟩

/-- Witness for C8: the characterization applied to the concrete `G8`
example at position 0. -/
theorem c8_witness :
    [0, 1].get? 0 = some (SPoly.mk 0 [2]).exterior ∧
    (SPoly.mk 0 [2]).holes
      = [2].filter (fun i => decide (firstMatch G8 i [0, 1] = some 0)) :=
  c8_first_match_hole_assignment.1 G8 [0, 1] [2] 0 ⟨0, [2]⟩ (by decide)

/-- C1 counterexample: in the source, the block loop calls `as_shapely2`
with its default arguments, so self-intersection repair is ENABLED for
blocks.  In the `G1` backend the block's raw polygon is invalid with a
self-intersection: the source path repairs it (no warning, the block is
aggregated with population 10), while the spec's repair-disabled path
records a warning naming block 7 and skips it; the two paths disagree. -/
theorem c1_counterexample :
    (blockNorm G1 blk1).repaired = true ∧
    (processBlock G1 areaPoly1 emptyAcc blk1).warnings = [] ∧
    (processBlock G1 areaPoly1 emptyAcc blk1).pop_all = 10 ∧
    (processBlockSpecNoFix G1 areaPoly1 emptyAcc blk1).warnings = [7] ∧
    (processBlockSpecNoFix G1 areaPoly1 emptyAcc blk1).pop_all = 0 ∧
    processBlock G1 areaPoly1 emptyAcc blk1
      ≠ processBlockSpecNoFix G1 areaPoly1 emptyAcc blk1 := by
  refine ⟨by decide, by decide, by decide, by decide, by decide, ?_⟩
  intro h
  have hw := congrArg LoopAcc.warnings h
  revert hw
  decide

/-- C1 (amended): every candidate block polygon is normalized with the
default arguments of `as_shapely2`, i.e. with self-intersection repair
ENABLED; any block whose normalized (possibly repaired) polygon is still
invalid is skipped entirely: a warning naming the block identifier is
recorded and the block contributes zero to every aggregate. -/
theorem c1_invalid_block_skipped_after_repair (G : GeomOps) (A : Geom)
    (acc : LoopAcc) (b : Block)
    (h : G.validGeom (blockNorm G b).geom = false) :
    blockNorm G b = as_shapely2 G b.rings true true ∧
    processBlock G A acc b = { acc with warnings := acc.warnings ++ [b.geoid] } :=
  ⟨rfl, processBlock_invalid G A acc b h⟩

/-- Witness for the amended C1: in the `G2` backend block 4 stays invalid
and is skipped with a warning, leaving every aggregate at zero. -/
theorem c1_witness :
    G2.validGeom (blockNorm G2 blk2).geom = false ∧
    (blockNorm G2 blk2 = as_shapely2 G2 blk2.rings true true ∧
      processBlock G2 areaPoly2 emptyAcc blk2
        = { emptyAcc with warnings := emptyAcc.warnings ++ [blk2.geoid] }) :=
  ⟨by decide, c1_invalid_block_skipped_after_repair G2 areaPoly2 emptyAcc blk2 (by decide)⟩

/-- C2 counterexample: `no_blocks_all` is `len(census_blocks)`, the count
of ALL candidate blocks.  In the `G2` backend the single candidate block
is skipped as invalid, so the count of non-skipped blocks is 0, yet
`no_blocks_all` is 1. -/
theorem c2_counterexample :
    blockSkipped G2 areaPoly2 blk2 = true ∧
    (summarizeBlocks G2 areaPoly2 [blk2]).no_blocks_all = 1 ∧
    notSkippedCount G2 areaPoly2 [blk2] = 0 ∧
    (summarizeBlocks G2 areaPoly2 [blk2]).no_blocks_all
      ≠ notSkippedCount G2 areaPoly2 [blk2] :=
  ⟨by decide, by decide, by decide, by decide⟩

/-- C2 (amended): for every area, the reported `no_blocks_all` statistic
equals the TOTAL number of candidate census blocks returned by the spatial
query, including blocks that were skipped for an invalid polygon or an
intersection failure. -/
theorem c2_no_blocks_all_counts_all_candidates (G : GeomOps) (A : Geom)
    (blocks : List Block) :
    (summarizeBlocks G A blocks).no_blocks_all = blocks.length := rfl

/-- C4: for every non-skipped block, population and housing are added to
the gt50 aggregates and `blocks_gt50` is incremented exactly when the
proportion strictly exceeds 1/2; a block with proportion exactly 1/2
contributes to none of the gt50 aggregates. -/
theorem c4_gt50_strict_threshold (G : GeomOps) (A : Geom) (acc : LoopAcc) (b : Block)
    (h : blockSkipped G A b = false) :
    ((processBlock G A acc b).pop_gt50 =
        acc.pop_gt50 + (if 1/2 < blockProp G A b then b.pop else 0)) ∧
    ((processBlock G A acc b).hu_gt50 =
        acc.hu_gt50 + (if 1/2 < blockProp G A b then b.hu else 0)) ∧
    ((processBlock G A acc b).blocks_gt50 =
        acc.blocks_gt50 + (if 1/2 < blockProp G A b then 1 else 0)) ∧
    (blockProp G A b = 1/2 →
      (processBlock G A acc b).pop_gt50 = acc.pop_gt50 ∧
      (processBlock G A acc b).hu_gt50 = acc.hu_gt50 ∧
      (processBlock G A acc b).blocks_gt50 = acc.blocks_gt50) := by
  have hv : G.validGeom (blockNorm G b).geom = true := by
    rcases Bool.eq_false_or_eq_true (G.validGeom (blockNorm G b).geom) with ht | hf
    · exact ht
    · rw [blockSkipped, hf] at h
      simp at h
  obtain ⟨ig, hi⟩ : ∃ ig, G.intersectionOf (blockNorm G b).geom A = some ig := by
    rcases ho : G.intersectionOf (blockNorm G b).geom A with _ | ig
    · rw [blockSkipped, ho] at h
      simp [hv] at h
    · exact ⟨ig, rfl⟩
  rw [processBlock_ok G A acc b ig hv hi, ← blockProp_eq G A b ig hi]
  refine ⟨rfl, rfl, rfl, fun hp => ?_⟩
  rw [hp]
  simp

/-- Witness for C4: block 1 of the `G3` backend has proportion exactly
1/2 and leaves every gt50 aggregate unchanged. -/
theorem c4_witness :
    blockSkipped G3 areaPoly3 blk31 = false ∧
    blockProp G3 areaPoly3 blk31 = 1/2 ∧
    ((processBlock G3 areaPoly3 emptyAcc blk31).pop_gt50 = emptyAcc.pop_gt50 ∧
      (processBlock G3 areaPoly3 emptyAcc blk31).hu_gt50 = emptyAcc.hu_gt50 ∧
      (processBlock G3 areaPoly3 emptyAcc blk31).blocks_gt50 = emptyAcc.blocks_gt50) :=
  ⟨by decide, blockProp_G3_blk31,
   (c4_gt50_strict_threshold G3 areaPoly3 emptyAcc blk31 (by decide)).2.2.2
     blockProp_G3_blk31⟩

/-- C5: for every (area, block) pair reaching the proportion step, the
proportion is `intersection.area / block_poly.area` — the block's own
full area in the denominator, not the area polygon's — and it is never
clamped: when the quotient exceeds 1 it still drives the gt50 tests and
the rounded weighted contributions as-is. -/
theorem c5_proportion_own_area_unclamped (G : GeomOps) (A : Geom) (acc : LoopAcc)
    (b : Block) (ig : Geom)
    (hv : G.validGeom (blockNorm G b).geom = true)
    (hi : G.intersectionOf (blockNorm G b).geom A = some ig) :
    blockProp G A b = G.areaOf ig / G.areaOf (blockNorm G b).geom ∧
    (processBlock G A acc b).pop_wtd =
      acc.pop_wtd + pyRound ((b.pop : ℚ) * (G.areaOf ig / G.areaOf (blockNorm G b).geom)) ∧
    (processBlock G A acc b).hu_wtd =
      acc.hu_wtd + pyRound ((b.hu : ℚ) * (G.areaOf ig / G.areaOf (blockNorm G b).geom)) ∧
    (1 < G.areaOf ig / G.areaOf (blockNorm G b).geom →
      (processBlock G A acc b).pop_gt50 = acc.pop_gt50 + b.pop ∧
      (processBlock G A acc b).blocks_gt50 = acc.blocks_gt50 + 1) := by
  rw [processBlock_ok G A acc b ig hv hi]
  refine ⟨blockProp_eq G A b ig hi, rfl, rfl, fun hq => ?_⟩
  have h2 : (1 : ℚ)/2 < G.areaOf ig / G.areaOf (blockNorm G b).geom :=
    lt_trans (by norm_num) hq
  constructor
  · show acc.pop_gt50 +
        (if 1/2 < G.areaOf ig / G.areaOf (blockNorm G b).geom then b.pop else 0)
      = acc.pop_gt50 + b.pop
    rw [if_pos h2]
  · show acc.blocks_gt50 +
        (if 1/2 < G.areaOf ig / G.areaOf (blockNorm G b).geom then 1 else 0)
      = acc.blocks_gt50 + 1
    rw [if_pos h2]

/-- Witness for C5: in the `G5` backend the proportion is 6/5 > 1, the
area polygon's area (100) differs from the block's own area (5), and the
overshooting proportion is used as-is. -/
theorem c5_witness :
    (processBlock G5 areaPoly5 emptyAcc blk5).pop_wtd =
      emptyAcc.pop_wtd + pyRound ((blk5.pop : ℚ) *
        (G5.areaOf (Geom.multi []) / G5.areaOf (blockNorm G5 blk5).geom)) ∧
    (processBlock G5 areaPoly5 emptyAcc blk5).pop_gt50 = emptyAcc.pop_gt50 + blk5.pop ∧
    (processBlock G5 areaPoly5 emptyAcc blk5).blocks_gt50 = emptyAcc.blocks_gt50 + 1 := by
  have h := c5_proportion_own_area_unclamped G5 areaPoly5 emptyAcc blk5
    (Geom.multi []) (by decide) (by decide)
  have hq : (1 : ℚ) < G5.areaOf (Geom.multi []) / G5.areaOf (blockNorm G5 blk5).geom := by
    rw [show (blockNorm G5 blk5).geom = Geom.poly ⟨0, []⟩ from by decide]
    norm_num [G5, show Geom.poly ⟨0, []⟩ ≠ Geom.multi [] from by decide]
  exact ⟨h.2.1, (h.2.2.2 hq).1, (h.2.2.2 hq).2⟩

/-- The summary's `pop_wtd` is the loop accumulator's `pop_wtd`. -/
theorem summarizeBlocks_pop_wtd (G : GeomOps) (A : Geom) (blocks : List Block) :
    (summarizeBlocks G A blocks).pop_wtd
      = (blocks.foldl (processBlock G A) emptyAcc).pop_wtd := rfl

/-- The summary's `hu_wtd` is the loop accumulator's `hu_wtd`. -/
theorem summarizeBlocks_hu_wtd (G : GeomOps) (A : Geom) (blocks : List Block) :
    (summarizeBlocks G A blocks).hu_wtd
      = (blocks.foldl (processBlock G A) emptyAcc).hu_wtd := rfl

/-- C3: the weighted totals round each block's contribution before
summing: `pop_wtd` (resp. `hu_wtd`) is the sum over non-skipped blocks of
`round(pop * proportion)` (resp. housing), and in the concrete two-block
`G3` scenario (two blocks of population 1, each covered exactly half) the
per-block-rounded total is 0 while rounding the summed contributions once
would give 1. -/
theorem c3_wtd_rounds_per_block :
    (∀ (G : GeomOps) (A : Geom) (blocks : List Block),
        (summarizeBlocks G A blocks).pop_wtd
          = ((blocks.filter (fun b => ! blockSkipped G A b)).map
              (fun b => pyRound ((b.pop : ℚ) * blockProp G A b))).sum ∧
        (summarizeBlocks G A blocks).hu_wtd
          = ((blocks.filter (fun b => ! blockSkipped G A b)).map
              (fun b => pyRound ((b.hu : ℚ) * blockProp G A b))).sum) ∧
    ((summarizeBlocks G3 areaPoly3 [blk31, blk32]).pop_wtd = 0 ∧
      pyRound ((([blk31, blk32].filter (fun b => ! blockSkipped G3 areaPoly3 b)).map
          (fun b => (b.pop : ℚ) * blockProp G3 areaPoly3 b)).sum) = 1) := by
  have hgen : ∀ (G : GeomOps) (A : Geom) (blocks : List Block),
      (summarizeBlocks G A blocks).pop_wtd
        = ((blocks.filter (fun b => ! blockSkipped G A b)).map
            (fun b => pyRound ((b.pop : ℚ) * blockProp G A b))).sum := by
    intro G A blocks
    rw [summarizeBlocks_pop_wtd, foldl_pop_wtd]
    simp [emptyAcc]
  refine ⟨fun G A blocks => ⟨hgen G A blocks, ?_⟩, ?_, ?_⟩
  · rw [summarizeBlocks_hu_wtd, foldl_hu_wtd]
    simp [emptyAcc]
  · rw [hgen G3 areaPoly3 [blk31, blk32],
        show [blk31, blk32].filter (fun b => ! blockSkipped G3 areaPoly3 b)
          = [blk31, blk32] from by decide]
    norm_num [blockProp_G3_blk31, blockProp_G3_blk32, pyRound,
      show Int.fract ((1 : ℚ)/2) = 1/2 from by rw [Int.fract]; norm_num,
      show blk31.pop = (1 : ℤ) from rfl, show blk32.pop = (1 : ℤ) from rfl]
  · rw [show [blk31, blk32].filter (fun b => ! blockSkipped G3 areaPoly3 b)
          = [blk31, blk32] from by decide]
    norm_num [blockProp_G3_blk31, blockProp_G3_blk32, pyRound,
      show blk31.pop = (1 : ℤ) from rfl, show blk32.pop = (1 : ℤ) from rfl]

/-- C9: when the caller-selected method is not one of the three policies,
the area record is left unmutated and no edit call is made; when one of
the three policies applies (and the totals are non-negative, as census
counts are), the update also sets `area_sq_mi` to the computed value and
the edit call is made. -/
theorem c9_method_dispatch :
    (∀ (m : String) (s : AreaSummary) (a : AreaRecord),
        m ≠ "all" → m ≠ "gt50" → m ≠ "wtd" → updateArea m s a = some (a, false)) ∧
    (∀ (m : String) (s : AreaSummary) (a : AreaRecord),
        (m = "all" ∨ m = "gt50" ∨ m = "wtd") →
        0 ≤ s.pop_all → 0 ≤ s.hu_all → 0 ≤ s.pop_gt50 → 0 ≤ s.hu_gt50 →
        0 ≤ s.pop_wtd → 0 ≤ s.hu_wtd →
        ∃ r : AreaRecord × Bool, updateArea m s a = some r ∧ r.2 = true ∧
          r.1.area_sq_mi = some s.area_sq_mi) := by
  constructor
  · intro m s a h1 h2 h3
    simp [updateArea, applyPolicy, h1, h2, h3]
  · rintro m s a (rfl | rfl | rfl) hp hh hp2 hh2 hp3 hh3
    · obtain ⟨p, hpe⟩ :=
        round_significant_nonneg_exists (s.pop_all : ℚ) (by exact_mod_cast hp) 2
      obtain ⟨q, hqe⟩ :=
        round_significant_nonneg_exists (s.hu_all : ℚ) (by exact_mod_cast hh) 2
      refine ⟨({ a with
          population := some p
          housing := some q
          method := some "all"
          area_sq_mi := some s.area_sq_mi }, true), ?_, rfl, rfl⟩
      simp [updateArea, applyPolicy, hpe, hqe]
    · obtain ⟨p, hpe⟩ :=
        round_significant_nonneg_exists (s.pop_gt50 : ℚ) (by exact_mod_cast hp2) 2
      obtain ⟨q, hqe⟩ :=
        round_significant_nonneg_exists (s.hu_gt50 : ℚ) (by exact_mod_cast hh2) 2
      refine ⟨({ a with
          population := some p
          housing := some q
          method := some "greater than 50%"
          area_sq_mi := some s.area_sq_mi }, true), ?_, rfl, rfl⟩
      simp [updateArea, applyPolicy, hpe, hqe]
    · obtain ⟨p, hpe⟩ :=
        round_significant_nonneg_exists (s.pop_wtd : ℚ) (by exact_mod_cast hp3) 2
      obtain ⟨q, hqe⟩ :=
        round_significant_nonneg_exists (s.hu_wtd : ℚ) (by exact_mod_cast hh3) 2
      refine ⟨({ a with
          population := some p
          housing := some q
          method := some "weighted"
          area_sq_mi := some s.area_sq_mi }, true), ?_, rfl, rfl⟩
      simp [updateArea, applyPolicy, hpe, hqe]

/-- Witness for C9: method `none` leaves the null record `a0` untouched
with no edit call, while method `all` on the all-zero summary `s0` makes
the edit call and sets `area_sq_mi`. -/
theorem c9_witness :
    updateArea "none" s0 a0 = some (a0, false) ∧
    ∃ r : AreaRecord × Bool, updateArea "all" s0 a0 = some r ∧ r.2 = true ∧
      r.1.area_sq_mi = some s0.area_sq_mi :=
  ⟨c9_method_dispatch.1 "none" s0 a0 (by decide) (by decide) (by decide),
   c9_method_dispatch.2 "all" s0 a0 (Or.inl rfl) (by decide) (by decide)
     (by decide) (by decide) (by decide) (by decide)⟩
